import Mathlib

/-!
Shallow embedding of the Upload-and-Poll Retry Driver of
`src/Video_Summary/App.py` (class `VideoAnalyzer`), together with the
surrounding caller logic of `main` that stages and cleans up the temporary
media file.

External collaborators (the Media Upload Service `genai.upload_file` /
`genai.get_file` and the Inference Agent `agent.run`) are modelled as
per-attempt oracles (`AttemptBehavior`): attempt `i` of the retry loop
draws its upload result, its sequence of refreshed handles, and its agent
response from `behaviors i`.  Time is modelled by the sleeps the driver
itself performs: each pass through the polling loop advances the clock by
`retry_delay` seconds, mirroring `time.sleep(self.config.retry_delay)`;
`time.time() - start_time` at iteration `j` of the polling loop is then
`j * retry_delay`.  A polling phase whose oracle list is exhausted before
the loop exits is a behavior the model cannot determine (the Python loop
would keep polling); it is rendered as `Option.none`.
-/

set_option autoImplicit false

namespace VideoSummary

/-- Processing-state enum of an uploaded file handle
(`processed_video.state.name` in `App.py`). -/
inductive FileState where
  | pending
  | processing
  | ready
  | failed
  deriving DecidableEq, Repr

/-- Opaque handle returned by the Media Upload Service: an identifier
(used by `genai.get_file(processed_video.name)`) and a processing state. -/
structure Handle where
  id : Nat
  state : FileState
  deriving DecidableEq, Repr

/-- `VideoAnalysisConfig` dataclass of `App.py` (lines 16-23): supported
formats, retry budget, inter-poll delay and per-attempt timeout, with the
source's default values. -/
structure VideoAnalysisConfig where
  supported_formats : List String := ["mp4", "mov", "avi"]
  max_retries : Nat := 3
  retry_delay : Nat := 2
  timeout : Nat := 300
  deriving Repr

/-- The configuration `VideoAnalyzer.__init__` builds: all defaults. -/
def defaultConfig : VideoAnalysisConfig := {}

/-- Python's `str.lower`, as the character-wise lowercasing that
`String.toLower` performs (`s.map Char.toLower`), written over the
character list so that concrete instances evaluate. -/
def pyLower (s : String) : String :=
  String.mk (s.data.map Char.toLower)

/-- Python's `str.endswith` for a single suffix: a raw suffix test on the
character sequence (no dot-separator logic). -/
def pyEndsWith (s suf : String) : Bool :=
  suf.data.isSuffixOf s.data

/-- The format check of `process_video` (line 141):
`video_file.name.lower().endswith(self.config.supported_formats)`.
Python's `str.endswith` on a tuple is true when the string ends with any
member of the tuple, as a raw suffix. -/
def formatCheck (cfg : VideoAnalysisConfig) (name : String) : Bool :=
  cfg.supported_formats.any (fun fmt => pyEndsWith (pyLower name) fmt)

/-- The two `ValueError` conditions `process_video` can raise. -/
inductive ProcessError where
  | noFile
  | unsupportedFormat
  deriving DecidableEq, Repr

/-- `VideoAnalyzer.process_video` (lines 136-148): reject a missing file,
reject a name failing the format check, otherwise stage the upload into a
temporary file and return its path.  The staged path is abstract here; what
matters is which branch is taken. -/
def process_video (cfg : VideoAnalysisConfig) (videoFilePresent : Bool)
    (name : String) : Except ProcessError String :=
  if !videoFilePresent then Except.error ProcessError.noFile
  else if !formatCheck cfg name then Except.error ProcessError.unsupportedFormat
  else Except.ok "temp.mp4"

/-- Result of one `genai.get_file` call inside the polling loop: a refreshed
handle, or a raised service error. -/
abbrev RefreshResult := Except String Handle

/-- Oracle for one iteration of the retry loop: the outcome of
`genai.upload_file` (a handle or a raised error), the successive outcomes of
`genai.get_file` while polling, and the outcome of `self.agent.run`. -/
structure AttemptBehavior where
  upload : Except String Handle
  refreshes : List RefreshResult
  agentResp : Except String String

/-- The polling loop of `analyze_video` (lines 165-170):
while the handle is `PROCESSING`, raise `TimeoutError` once the elapsed
time exceeds `cfg.timeout`, otherwise sleep `retry_delay` and refresh the
handle.  `elapsed` is `time.time() - start_time` at the current check; each
pass adds `retry_delay` to it.  Returns the final handle and the elapsed
time on loop exit, the raised error message, or `none` when the refresh
oracle is exhausted while the loop is still running. -/
def pollLoop (cfg : VideoAnalysisConfig) :
    Handle → List RefreshResult → Nat → Option (Except String (Handle × Nat))
  | h, refreshes, elapsed =>
    if h.state = FileState.processing then
      if cfg.timeout < elapsed then
        some (Except.error "Video processing timeout")
      else
        match refreshes with
        | [] => none
        | r :: rs =>
          match r with
          | Except.error e => some (Except.error e)
          | Except.ok h2 => pollLoop cfg h2 rs (elapsed + cfg.retry_delay)
    else some (Except.ok (h, elapsed))

/-- Outcome of the `try` body of one retry-loop iteration. -/
inductive AttemptOutcome where
  | ok (content : String) (processingTime : Nat)
  | err (msg : String)
  deriving DecidableEq, Repr

/-- One iteration of the retry loop's `try` body (lines 161-179): submit the
file, poll until the handle leaves `PROCESSING` (or time out), then run the
agent; any raised error becomes `AttemptOutcome.err`, mirroring the
`except Exception` handler.  The reported processing time is
`time.time() - start_time` at the `return`, which under the sleep-driven
clock is the elapsed value at polling-loop exit. -/
def runAttempt (cfg : VideoAnalysisConfig) (b : AttemptBehavior) :
    Option AttemptOutcome :=
  match b.upload with
  | Except.error e => some (AttemptOutcome.err e)
  | Except.ok h =>
    match pollLoop cfg h b.refreshes 0 with
    | none => none
    | some (Except.error e) => some (AttemptOutcome.err e)
    | some (Except.ok (_, elapsed)) =>
      match b.agentResp with
      | Except.error e => some (AttemptOutcome.err e)
      | Except.ok content => some (AttemptOutcome.ok content elapsed)

/-- Final result of `analyze_video`: the success dict
(`success: True, content, processing_time`) or the failure dict
(`success: False, error`), whose message is assembled by `failureMessage`
from the attempt counter and last recorded error. -/
inductive Outcome where
  | success (content : String) (processingTime : Nat)
  | failure (attempts : Nat) (lastError : Option String)
  deriving DecidableEq, Repr

/-- The failure message of line 189:
`f"Analysis failed after {attempts} attempts. Last error: {last_error}"`,
with Python rendering `None` as the text `None`. -/
def failureMessage (attempts : Nat) (lastError : Option String) : String :=
  "Analysis failed after " ++ toString attempts ++ " attempts. Last error: " ++
    (match lastError with
     | none => "None"
     | some e => e)

/-- The retry loop of `analyze_video` (lines 157-190), as a fuel translation
of `while attempts < self.config.max_retries`: `remaining` is
`max_retries - attempts`, so the loop body runs exactly while
`attempts < max_retries`.  On an attempt's error the counter advances and
the error is recorded; on exhaustion the failure outcome reports the final
counter and last error.  The second component counts the calls made to
`genai.upload_file` (one per iteration entered, including an iteration
whose polling the oracle leaves undetermined, since the upload call
precedes the polling). -/
def analyzeLoop (cfg : VideoAnalysisConfig) (behaviors : Nat → AttemptBehavior) :
    Nat → Nat → Option String → Option Outcome × Nat
  | 0, attempts, lastError => (some (Outcome.failure attempts lastError), attempts)
  | remaining + 1, attempts, _lastError =>
    match runAttempt cfg (behaviors attempts) with
    | none => (none, attempts + 1)
    | some (AttemptOutcome.ok content t) =>
      (some (Outcome.success content t), attempts + 1)
    | some (AttemptOutcome.err e) =>
      analyzeLoop cfg behaviors remaining (attempts + 1) (some e)

/-- `VideoAnalyzer.analyze_video` (lines 150-190): raise `FileNotFoundError`
when the path does not exist, otherwise run the retry loop starting from
`attempts = 0`, `last_error = None`.  First component: `Except.error` is an
exception escaping the method, `Except.ok` the returned dict (`none` when
the oracle leaves the polling undetermined).  Second component: number of
Media Upload Service submission calls made. -/
def analyze_video (cfg : VideoAnalysisConfig) (pathExists : Bool)
    (behaviors : Nat → AttemptBehavior) :
    Except String (Option Outcome) × Nat :=
  if pathExists then
    let r := analyzeLoop cfg behaviors cfg.max_retries 0 none
    (Except.ok r.1, r.2)
  else (Except.error "Video file not found", 0)

/-- The sequence of submission results the retry loop consumes: iteration
`attempts` submits via `(behaviors attempts).upload` and, only on an
attempt error, a further iteration follows.  Mirrors `analyzeLoop`
step for step. -/
def submissionTrace (cfg : VideoAnalysisConfig) (behaviors : Nat → AttemptBehavior) :
    Nat → Nat → List (Except String Handle)
  | 0, _ => []
  | remaining + 1, attempts =>
    match runAttempt cfg (behaviors attempts) with
    | none => [(behaviors attempts).upload]
    | some (AttemptOutcome.ok _ _) => [(behaviors attempts).upload]
    | some (AttemptOutcome.err _) =>
      (behaviors attempts).upload :: submissionTrace cfg behaviors remaining (attempts + 1)

/-- The `main`-flow composition (lines 270-290): `process_video` stages the
file first; only when it succeeds is `analyze_video` reachable.  A
`process_video` error propagates (the `ValueError` reaches `main`'s outer
handler) and no submission is made. -/
def process_then_analyze (cfg : VideoAnalysisConfig) (videoFilePresent : Bool)
    (name : String) (pathExists : Bool) (behaviors : Nat → AttemptBehavior) :
    Except ProcessError (Except String (Option Outcome) × Nat) :=
  match process_video cfg videoFilePresent name with
  | Except.error e => Except.error e
  | Except.ok _ => Except.ok (analyze_video cfg pathExists behaviors)

/-- Number of Media Upload Service calls a full `main`-flow run makes. -/
def pipelineSubmissionCount
    (r : Except ProcessError (Except String (Option Outcome) × Nat)) : Nat :=
  match r with
  | Except.error _ => 0
  | Except.ok p => p.2

/-- The user-interaction inputs that drive one run of `main`
(lines 263-306): whether a file was uploaded, its name, whether the
Analyze button was clicked, and the query text. -/
structure MainScenario where
  videoFilePresent : Bool
  fileName : String
  buttonClicked : Bool
  userQuery : String
  deriving DecidableEq, Repr

/-- Resource effects of one run of `main`: whether a temporary media file
was staged on disk, and whether it was deleted before `main` finished. -/
structure MainEffects where
  staged : Bool
  deleted : Bool
  deriving DecidableEq, Repr

/-- Staging and cleanup behavior of `main` (lines 270-306).  The file is
staged by `process_video` once an upload is present and the format check
passes.  `Path(video_path).unlink(missing_ok=True)` sits in the `finally`
of the `try` entered only when the Analyze button is clicked with a
non-empty query; that `finally` runs on success, on a failure result and
on a raised exception alike, so every path through that `try` deletes the
file.  Paths that never enter it (button not clicked, or empty query) end
`main` with the staged file still on disk. -/
def mainRun (cfg : VideoAnalysisConfig) (s : MainScenario) : MainEffects :=
  if s.videoFilePresent then
    match process_video cfg true s.fileName with
    | Except.error _ => { staged := false, deleted := false }
    | Except.ok _ =>
      if s.buttonClicked then
        if s.userQuery = "" then { staged := true, deleted := false }
        else { staged := true, deleted := true }
      else { staged := true, deleted := false }
  else { staged := false, deleted := false }

/-! Concrete oracles used to instantiate the theorems below. -/

/-- A Media Upload Service whose every submission raises. -/
def alwaysFailingService : Nat → AttemptBehavior := fun _ =>
  { upload := Except.error "boom", refreshes := [], agentResp := Except.error "boom" }

/-- A service whose handle is `READY` at once and whose agent answers `OK`. -/
def immediatelyReadyService : Nat → AttemptBehavior := fun _ =>
  { upload := Except.ok { id := 0, state := FileState.ready }, refreshes := [],
    agentResp := Except.ok "OK" }

/-- A service whose handle never leaves `PROCESSING`: the upload succeeds
and every refresh returns a still-`PROCESSING` handle. -/
def neverReadyService : Nat → AttemptBehavior := fun _ =>
  { upload := Except.ok { id := 0, state := FileState.processing },
    refreshes := [Except.ok { id := 0, state := FileState.processing },
                  Except.ok { id := 0, state := FileState.processing },
                  Except.ok { id := 0, state := FileState.processing }],
    agentResp := Except.ok "OK" }

/-- A service failing on the first two attempts and ready on the third. -/
def failTwiceThenReadyService : Nat → AttemptBehavior := fun i =>
  if i < 2 then
    { upload := Except.error "unavailable", refreshes := [],
      agentResp := Except.error "unavailable" }
  else
    { upload := Except.ok { id := i, state := FileState.ready }, refreshes := [],
      agentResp := Except.ok "OK" }

/-- A small configuration whose per-attempt timeout is two seconds and whose
poll delay is one second, so that three still-`PROCESSING` polls exceed it. -/
def shortTimeoutConfig : VideoAnalysisConfig :=
  { defaultConfig with timeout := 2, retry_delay := 1 }

/-- The default configuration with the retry budget set to zero. -/
def zeroRetryConfig : VideoAnalysisConfig :=
  { defaultConfig with max_retries := 0 }

/-! Helper lemmas about the retry loop. -/

/-- The submission counter of the loop never falls below its starting
attempt counter. -/
theorem analyzeLoop_count_ge (cfg : VideoAnalysisConfig)
    (behaviors : Nat → AttemptBehavior) :
    ∀ remaining attempts le,
      attempts ≤ (analyzeLoop cfg behaviors remaining attempts le).2 := by
  intro remaining
  induction remaining with
  | zero => intro attempts le; simp [analyzeLoop]
  | succ r ih =>
    intro attempts le
    cases hr : runAttempt cfg (behaviors attempts) with
    | none => simp [analyzeLoop, hr]
    | some o =>
      cases o with
      | ok c t => simp [analyzeLoop, hr]
      | err e =>
        have h := ih (attempts + 1) (some e)
        simp only [analyzeLoop, hr]
        omega

/-- An attempt whose upload raises is an attempt error carrying that
error's text. -/
theorem runAttempt_upload_error (cfg : VideoAnalysisConfig)
    (b : AttemptBehavior) (e : String) (h : b.upload = Except.error e) :
    runAttempt cfg b = some (AttemptOutcome.err e) := by
  simp [runAttempt, h]

/-- When every attempt's outcome is determined by the oracle, the loop
returns a value: a success, or a failure whose reported attempt count is
the submission count and equals the starting counter plus the whole
remaining budget. -/
theorem analyzeLoop_total (cfg : VideoAnalysisConfig)
    (behaviors : Nat → AttemptBehavior)
    (hterm : ∀ i, runAttempt cfg (behaviors i) ≠ none) :
    ∀ remaining attempts le,
      ∃ o n, analyzeLoop cfg behaviors remaining attempts le = (some o, n) ∧
        ((∃ c t, o = Outcome.success c t) ∨
          ∃ le2, o = Outcome.failure n le2 ∧ n = attempts + remaining) := by
  intro remaining
  induction remaining with
  | zero =>
    intro attempts le
    exact ⟨Outcome.failure attempts le, attempts, by simp [analyzeLoop],
      Or.inr ⟨le, rfl, by omega⟩⟩
  | succ r ih =>
    intro attempts le
    cases hr : runAttempt cfg (behaviors attempts) with
    | none => exact absurd hr (hterm attempts)
    | some o =>
      cases o with
      | ok c t =>
        exact ⟨Outcome.success c t, attempts + 1, by simp [analyzeLoop, hr],
          Or.inl ⟨c, t, rfl⟩⟩
      | err e =>
        obtain ⟨o2, n, heq, hcase⟩ := ih (attempts + 1) (some e)
        refine ⟨o2, n, by simp [analyzeLoop, hr, heq], ?_⟩
        rcases hcase with h1 | ⟨le2, h2, h3⟩
        · exact Or.inl h1
        · exact Or.inr ⟨le2, h2, by omega⟩

/-- When every upload raises, the loop consumes its whole budget, one
submission per attempt, and reports the budget and the last error. -/
theorem analyzeLoop_all_fail (cfg : VideoAnalysisConfig)
    (behaviors : Nat → AttemptBehavior) (errs : Nat → String)
    (hup : ∀ i, (behaviors i).upload = Except.error (errs i)) :
    ∀ remaining attempts le, 1 ≤ remaining →
      analyzeLoop cfg behaviors remaining attempts le =
        (some (Outcome.failure (attempts + remaining)
          (some (errs (attempts + remaining - 1)))), attempts + remaining) := by
  intro remaining
  induction remaining with
  | zero => intro attempts le h; omega
  | succ r ih =>
    intro attempts le _
    have hr : runAttempt cfg (behaviors attempts) =
        some (AttemptOutcome.err (errs attempts)) :=
      runAttempt_upload_error cfg _ _ (hup attempts)
    rcases Nat.eq_zero_or_pos r with h0 | h1
    · subst h0
      simp [analyzeLoop, hr]
    · have h := ih (attempts + 1) (some (errs attempts)) h1
      have e1 : attempts + 1 + r = attempts + (r + 1) := by omega
      simp only [analyzeLoop, hr]
      rw [h, e1]

/-- When attempts below `K` error and attempt `K` succeeds, the loop run
from any counter at most `K` (with fuel reaching `K`) returns that success
after exactly `K + 1` submissions. -/
theorem analyzeLoop_success (cfg : VideoAnalysisConfig)
    (behaviors : Nat → AttemptBehavior) (K : Nat) (c : String) (t : Nat)
    (hsucc : runAttempt cfg (behaviors K) = some (AttemptOutcome.ok c t))
    (hfail : ∀ i, i < K → ∃ e, runAttempt cfg (behaviors i) = some (AttemptOutcome.err e)) :
    ∀ remaining attempts le, attempts ≤ K → K < attempts + remaining →
      analyzeLoop cfg behaviors remaining attempts le =
        (some (Outcome.success c t), K + 1) := by
  intro remaining
  induction remaining with
  | zero => intro attempts le h1 h2; omega
  | succ r ih =>
    intro attempts le h1 h2
    rcases Nat.eq_or_lt_of_le h1 with heq | hlt
    · subst heq
      simp [analyzeLoop, hsucc]
    · obtain ⟨e, he⟩ := hfail attempts hlt
      simp only [analyzeLoop, he]
      exact ih (attempts + 1) (some e) hlt (by omega)

/-- When the handle stays `PROCESSING` through every refresh and the sleeps
add up past the timeout, the polling loop raises the `TimeoutError` of
line 168. -/
theorem pollLoop_processing_timeout (cfg : VideoAnalysisConfig) :
    ∀ (refreshes : List RefreshResult) (h : Handle) (elapsed : Nat),
      h.state = FileState.processing →
      (∀ r ∈ refreshes, ∃ h2, r = Except.ok h2 ∧ h2.state = FileState.processing) →
      cfg.timeout < elapsed + refreshes.length * cfg.retry_delay →
      pollLoop cfg h refreshes elapsed =
        some (Except.error "Video processing timeout") := by
  intro refreshes
  induction refreshes with
  | nil =>
    intro h elapsed hst _ hlen
    simp only [List.length_nil, Nat.zero_mul, Nat.add_zero] at hlen
    simp [pollLoop, hst, hlen]
  | cons r rs ih =>
    intro h elapsed hst hall hlen
    by_cases hto : cfg.timeout < elapsed
    · simp [pollLoop, hst, hto]
    · obtain ⟨h2, hr, hst2⟩ := hall r (by simp)
      subst hr
      have hrec := ih h2 (elapsed + cfg.retry_delay) hst2
        (fun r2 hr2 => hall r2 (by simp [hr2]))
        (by simp only [List.length_cons, Nat.succ_mul] at hlen; omega)
      simp [pollLoop, hst, hto, hrec]

/-- The submission results the loop consumes are exactly one per attempt
entered, attempt `i` consuming its own oracle's upload. -/
theorem submissionTrace_eq (cfg : VideoAnalysisConfig)
    (behaviors : Nat → AttemptBehavior) :
    ∀ remaining attempts le,
      submissionTrace cfg behaviors remaining attempts =
        (List.range' attempts
            ((analyzeLoop cfg behaviors remaining attempts le).2 - attempts)).map
          (fun i => (behaviors i).upload) := by
  intro remaining
  induction remaining with
  | zero => intro attempts le; simp [submissionTrace, analyzeLoop]
  | succ r ih =>
    intro attempts le
    cases hr : runAttempt cfg (behaviors attempts) with
    | none => simp [submissionTrace, analyzeLoop, hr, List.range'_succ]
    | some o =>
      cases o with
      | ok c t => simp [submissionTrace, analyzeLoop, hr, List.range'_succ]
      | err e =>
        have hge := analyzeLoop_count_ge cfg behaviors r (attempts + 1) (some e)
        have heq := ih (attempts + 1) (some e)
        simp only [submissionTrace, analyzeLoop, hr]
        rw [heq]
        have h1 : (analyzeLoop cfg behaviors r (attempts + 1) (some e)).2 - attempts =
            ((analyzeLoop cfg behaviors r (attempts + 1) (some e)).2 - (attempts + 1)) + 1 := by
          omega
        rw [h1, List.range'_succ, List.map_cons]

/-! Claim theorems. -/

/-- C1: whenever the media path references an existing file,
`analyze_video` returns a result value and never raises past the component
boundary: every failure inside the retry loop is caught by the
`except Exception` handler, and on attempt exhaustion the call returns the
failure variant, whose message carries the number of attempts made (the
full budget) and a last-observed-error field.  The determinedness
hypothesis says each attempt's refresh oracle settles its polling phase;
in the running program the advancing real-time clock guarantees this. -/
theorem analyze_video_never_raises (cfg : VideoAnalysisConfig)
    (pathExists : Bool) (behaviors : Nat → AttemptBehavior)
    (hp : pathExists = true)
    (hterm : ∀ i, runAttempt cfg (behaviors i) ≠ none) :
    ∃ o n, analyze_video cfg pathExists behaviors = (Except.ok (some o), n) ∧
      ((∃ c t, o = Outcome.success c t) ∨
        ∃ le2, o = Outcome.failure n le2 ∧ n = cfg.max_retries) := by
  subst hp
  obtain ⟨o, n, h1, h2⟩ := analyzeLoop_total cfg behaviors hterm cfg.max_retries 0 none
  refine ⟨o, n, by simp [analyze_video, h1], ?_⟩
  rcases h2 with h | ⟨le2, ho, hn⟩
  · exact Or.inl h
  · exact Or.inr ⟨le2, ho, by omega⟩

/-- Witness for C1 at a service whose every submission raises. -/
theorem analyze_video_never_raises_witness :
    ∃ o n, analyze_video defaultConfig true alwaysFailingService =
        (Except.ok (some o), n) ∧
      ((∃ c t, o = Outcome.success c t) ∨
        ∃ le2, o = Outcome.failure n le2 ∧ n = defaultConfig.max_retries) :=
  analyze_video_never_raises defaultConfig true alwaysFailingService rfl
    (fun i => by simp [runAttempt, alwaysFailingService])

/-- C2: with retry budget `N ≥ 1` and every submission to the Media Upload
Service raising, `analyze_video` makes exactly `N` submission calls (one
fresh submission per attempt) and returns the failure variant whose
message reports attempt count `N` and the last observed error. -/
theorem analyze_video_all_submissions_fail (cfg : VideoAnalysisConfig)
    (behaviors : Nat → AttemptBehavior) (errs : Nat → String)
    (hN : 1 ≤ cfg.max_retries)
    (hup : ∀ i, (behaviors i).upload = Except.error (errs i)) :
    analyze_video cfg true behaviors =
      (Except.ok (some (Outcome.failure cfg.max_retries
        (some (errs (cfg.max_retries - 1))))), cfg.max_retries) ∧
    failureMessage cfg.max_retries (some (errs (cfg.max_retries - 1))) =
      "Analysis failed after " ++ toString cfg.max_retries ++
        " attempts. Last error: " ++ errs (cfg.max_retries - 1) := by
  have h := analyzeLoop_all_fail cfg behaviors errs hup cfg.max_retries 0 none hN
  simp only [Nat.zero_add] at h
  exact ⟨by simp [analyze_video, h], rfl⟩

/-- Witness for C2: the default budget of three and a permanently failing
service give three submissions and a failure reporting three attempts. -/
theorem analyze_video_all_submissions_fail_witness :
    analyze_video defaultConfig true alwaysFailingService =
      (Except.ok (some (Outcome.failure defaultConfig.max_retries
        (some "boom"))), defaultConfig.max_retries) ∧
    failureMessage defaultConfig.max_retries (some "boom") =
      "Analysis failed after " ++ toString defaultConfig.max_retries ++
        " attempts. Last error: " ++ "boom" :=
  analyze_video_all_submissions_fail defaultConfig alwaysFailingService
    (fun _ => "boom") (by decide) (fun i => rfl)

/-- C3: when the submit-poll-infer cycle errors on attempts `1..k-1` and
succeeds on attempt `k ≤ N`, `analyze_video` returns the success variant
carrying the agent's response, after exactly `k` submission calls. -/
theorem analyze_video_first_success_at_k (cfg : VideoAnalysisConfig)
    (behaviors : Nat → AttemptBehavior) (k : Nat) (c : String) (t : Nat)
    (errs : Nat → String)
    (hk1 : 1 ≤ k) (hkN : k ≤ cfg.max_retries)
    (hfail : ∀ i, i < k - 1 →
      runAttempt cfg (behaviors i) = some (AttemptOutcome.err (errs i)))
    (hsucc : runAttempt cfg (behaviors (k - 1)) = some (AttemptOutcome.ok c t)) :
    analyze_video cfg true behaviors = (Except.ok (some (Outcome.success c t)), k) := by
  have h := analyzeLoop_success cfg behaviors (k - 1) c t hsucc
    (fun i hi => ⟨errs i, hfail i hi⟩) cfg.max_retries 0 none (by omega) (by omega)
  have hk : k - 1 + 1 = k := by omega
  rw [hk] at h
  simp [analyze_video, h]

/-- Witness for C3, the spec's example: budget three, two failures, then a
`READY` handle and agent text `OK` — success with content `OK` after three
submissions. -/
theorem analyze_video_first_success_at_k_witness :
    analyze_video defaultConfig true failTwiceThenReadyService =
      (Except.ok (some (Outcome.success "OK" 0)), 3) :=
  analyze_video_first_success_at_k defaultConfig failTwiceThenReadyService 3 "OK" 0
    (fun _ => "unavailable") (by decide) (by decide)
    (fun i hi => by interval_cases i <;> rfl) rfl

/-- C4: a file whose name fails the configured format check is rejected by
`process_video` before anything else happens: the pipeline errors with the
unsupported-format `ValueError` and zero calls reach the Media Upload
Service, so no attempt of the retry budget is consumed. -/
theorem bad_format_makes_no_submission (cfg : VideoAnalysisConfig)
    (name : String) (pathExists : Bool) (behaviors : Nat → AttemptBehavior)
    (hfmt : formatCheck cfg name = false) :
    process_then_analyze cfg true name pathExists behaviors =
      Except.error ProcessError.unsupportedFormat ∧
    pipelineSubmissionCount
      (process_then_analyze cfg true name pathExists behaviors) = 0 := by
  have h1 : process_video cfg true name = Except.error ProcessError.unsupportedFormat := by
    simp [process_video, hfmt]
  exact ⟨by simp [process_then_analyze, h1],
    by simp [process_then_analyze, h1, pipelineSubmissionCount]⟩

/-- Witness for C4 at the disallowed name `document.pdf`. -/
theorem bad_format_makes_no_submission_witness :
    process_then_analyze defaultConfig true "document.pdf" true immediatelyReadyService =
      Except.error ProcessError.unsupportedFormat ∧
    pipelineSubmissionCount
      (process_then_analyze defaultConfig true "document.pdf" true
        immediatelyReadyService) = 0 :=
  bad_format_makes_no_submission defaultConfig "document.pdf" true
    immediatelyReadyService (by decide)

/-- C5: an attempt whose polling exceeds the configured timeout while the
handle stays `PROCESSING` aborts with the timeout failure, and the retry
loop consumes exactly one attempt for it — stepping to the next attempt
with the counter advanced by one and the timeout recorded, by the very
same loop step an explicitly raised service error takes (last conjunct). -/
theorem polling_timeout_consumes_one_attempt (cfg : VideoAnalysisConfig)
    (behaviors behaviors2 : Nat → AttemptBehavior) (a remaining : Nat)
    (le : Option String) (h0 : Handle) (e : String)
    (hup : (behaviors a).upload = Except.ok h0)
    (hst : h0.state = FileState.processing)
    (hall : ∀ r ∈ (behaviors a).refreshes,
      ∃ h2, r = Except.ok h2 ∧ h2.state = FileState.processing)
    (hlen : cfg.timeout < (behaviors a).refreshes.length * cfg.retry_delay)
    (hra2 : runAttempt cfg (behaviors2 a) = some (AttemptOutcome.err e)) :
    runAttempt cfg (behaviors a) =
      some (AttemptOutcome.err "Video processing timeout") ∧
    analyzeLoop cfg behaviors (remaining + 1) a le =
      analyzeLoop cfg behaviors remaining (a + 1) (some "Video processing timeout") ∧
    analyzeLoop cfg behaviors2 (remaining + 1) a le =
      analyzeLoop cfg behaviors2 remaining (a + 1) (some e) := by
  have hpoll := pollLoop_processing_timeout cfg (behaviors a).refreshes h0 0 hst hall
    (by simpa using hlen)
  have hra : runAttempt cfg (behaviors a) =
      some (AttemptOutcome.err "Video processing timeout") := by
    simp [runAttempt, hup, hpoll]
  exact ⟨hra, by simp [analyzeLoop, hra], by simp [analyzeLoop, hra2]⟩

/-- Witness for C5: a two-second timeout, one-second delay and a handle
that never leaves `PROCESSING`, against an explicit upload error. -/
theorem polling_timeout_consumes_one_attempt_witness :
    runAttempt shortTimeoutConfig (neverReadyService 0) =
      some (AttemptOutcome.err "Video processing timeout") ∧
    analyzeLoop shortTimeoutConfig neverReadyService (2 + 1) 0 none =
      analyzeLoop shortTimeoutConfig neverReadyService 2 (0 + 1)
        (some "Video processing timeout") ∧
    analyzeLoop shortTimeoutConfig alwaysFailingService (2 + 1) 0 none =
      analyzeLoop shortTimeoutConfig alwaysFailingService 2 (0 + 1) (some "boom") :=
  polling_timeout_consumes_one_attempt shortTimeoutConfig neverReadyService
    alwaysFailingService 0 2 none { id := 0, state := FileState.processing } "boom"
    rfl rfl
    (by intro r hr
        simp [neverReadyService] at hr
        exact ⟨{ id := 0, state := FileState.processing }, hr, rfl⟩)
    (by decide) rfl

/-- C6: on success, the reported processing time is nonnegative and is the
final successful attempt's own elapsed time, measured from that attempt's
submission (`start_time` is reset right after each `upload_file` call):
running the successful attempt's behavior alone reports the same time, so
time spent in failed attempts contributes nothing. -/
theorem success_time_reflects_final_attempt_only (cfg : VideoAnalysisConfig)
    (behaviors : Nat → AttemptBehavior) (k : Nat) (c : String) (t : Nat)
    (errs : Nat → String)
    (hk : k < cfg.max_retries)
    (hfail : ∀ i, i < k →
      runAttempt cfg (behaviors i) = some (AttemptOutcome.err (errs i)))
    (hsucc : runAttempt cfg (behaviors k) = some (AttemptOutcome.ok c t)) :
    analyze_video cfg true behaviors =
      (Except.ok (some (Outcome.success c t)), k + 1) ∧
    analyze_video cfg true (fun _ => behaviors k) =
      (Except.ok (some (Outcome.success c t)), 1) ∧
    0 ≤ t := by
  have h1 := analyzeLoop_success cfg behaviors k c t hsucc
    (fun i hi => ⟨errs i, hfail i hi⟩) cfg.max_retries 0 none (by omega) (by omega)
  have h2 := analyzeLoop_success cfg (fun _ => behaviors k) 0 c t hsucc
    (fun i hi => absurd hi (by omega)) cfg.max_retries 0 none (by omega) (by omega)
  exact ⟨by simp [analyze_video, h1], by simp [analyze_video, h2], by omega⟩

/-- Witness for C6 at the fail-twice-then-ready service, successful at the
third attempt with elapsed time zero. -/
theorem success_time_reflects_final_attempt_only_witness :
    analyze_video defaultConfig true failTwiceThenReadyService =
      (Except.ok (some (Outcome.success "OK" 0)), 2 + 1) ∧
    analyze_video defaultConfig true (fun _ => failTwiceThenReadyService 2) =
      (Except.ok (some (Outcome.success "OK" 0)), 1) ∧
    0 ≤ 0 :=
  success_time_reflects_final_attempt_only defaultConfig failTwiceThenReadyService
    2 "OK" 0 (fun _ => "unavailable") (by decide)
    (fun i hi => by interval_cases i <;> rfl) rfl

/-- C7: the retry loop performs exactly one Media Upload Service submission
per attempt entered, and attempt `i` consumes its own oracle's submission
result — a handle obtained in an earlier, failed attempt is never reused,
so every retry begins with a fresh submission. -/
theorem submissions_fresh_per_attempt (cfg : VideoAnalysisConfig)
    (behaviors : Nat → AttemptBehavior) :
    submissionTrace cfg behaviors cfg.max_retries 0 =
      (List.range (analyze_video cfg true behaviors).2).map
        (fun i => (behaviors i).upload) := by
  have h := submissionTrace_eq cfg behaviors cfg.max_retries 0 none
  rw [h, List.range_eq_range']
  simp [analyze_video]

/-- C8 evidence: a run of `main` that stages a valid video but never
reaches the Analyze click ends with the staged temporary file still on
disk — the `finally` cleanup of lines 304-306 guards only the analysis
`try`, not every exit path of `main` that staged a file. -/
theorem staged_file_leaks_without_analysis_click :
    mainRun defaultConfig
      { videoFilePresent := true, fileName := "clip.mp4", buttonClicked := false,
        userQuery := "Summarize this video" } =
      { staged := true, deleted := false } := by decide

/-- C9: with `max_retries = 0` and an existing media path, the loop body
never runs: zero submissions are made and the call returns, without
raising, the failure variant reporting zero attempts and a `None` last
error, rendered by the line-189 message. -/
theorem analyze_video_zero_max_retries (cfg : VideoAnalysisConfig)
    (behaviors : Nat → AttemptBehavior) (h : cfg.max_retries = 0) :
    analyze_video cfg true behaviors =
      (Except.ok (some (Outcome.failure 0 none)), 0) ∧
    failureMessage 0 none = "Analysis failed after 0 attempts. Last error: None" := by
  refine ⟨?_, rfl⟩
  simp [analyze_video, h, analyzeLoop]

/-- Witness for C9 at the zero-budget configuration. -/
theorem analyze_video_zero_max_retries_witness :
    analyze_video zeroRetryConfig true immediatelyReadyService =
      (Except.ok (some (Outcome.failure 0 none)), 0) ∧
    failureMessage 0 none = "Analysis failed after 0 attempts. Last error: None" :=
  analyze_video_zero_max_retries zeroRetryConfig immediatelyReadyService rfl

/-- C10: the format check of `process_video` is a raw suffix test on the
lowercased name, not an extension test: it accepts exactly the names whose
lowercase form ends with the characters `mp4`, `mov` or `avi`, with no dot
separator required — `clipmp4` passes while `a.mp4x` is rejected. -/
theorem format_check_is_raw_suffix_test :
    (∀ name : String, formatCheck defaultConfig name =
      (pyEndsWith (pyLower name) "mp4" ||
        (pyEndsWith (pyLower name) "mov" || pyEndsWith (pyLower name) "avi"))) ∧
    formatCheck defaultConfig "clipmp4" = true ∧
    formatCheck defaultConfig "a.mp4x" = false := by
  refine ⟨fun name => ?_, by decide, by decide⟩
  simp [formatCheck, defaultConfig]

end VideoSummary
